import Mathlib

/-!
Verification development for the TelegramTestBot repository (`bot.py`,
`db_setup.py`): a shallow embedding of the catalog query engine, the
per-user session state, the navigation/message stack, the button-payload
dispatcher and the data-entry/edit conversation steps, together with
theorems settling the frozen behavioural claims.

Modelling conventions:
* The sqlite database (`bot.db`) is a `DB` record of four relations,
  mirroring the schema created by `db_setup.setup_database`.
* A storage connection that raises `sqlite3.OperationalError` on
  `execute` is modelled by `Storage := Option DB`: `none` means every
  query fails with `StorageErr.unavailable`.
* Python dicts that are built up key by key are modelled by association
  lists (`lookupA` / `setA`); a dict key that may be altogether absent is
  modelled by `Option`.
* Python `int(...)` / `float(...)` are modelled by `pyInt` / `pyFloat`
  on the plain decimal forms exercised by the bot; a raised `ValueError`
  is `none`.  Python list slicing `l[a:b]` is `pySlice` with Python's
  negative-index and clamping semantics.
-/

/-- One row of the `objects` table.  Besides the primary key and
`obj_type` (which the filter queries inspect) the remaining columns
(`obj_name`, `obj_year`, ...) are carried as an association list of
column name to rendered value; none of the modelled queries filters on
them. -/
structure Obj where
  id : Int
  objType : String
  fields : List (String × String) := []
deriving DecidableEq, Repr

/-- The sqlite database created by `db_setup.setup_database`:
`objects`, `genres (id, name)`, `object_genres (object_id, genre_id)`
and `user_views (user_id, object_id)`. -/
structure DB where
  objects : List Obj := []
  genres : List (Int × String) := []
  objectGenres : List (Int × Int) := []
  userViews : List (Int × Int) := []
deriving DecidableEq, Repr

/-- A storage handle: `none` models a connection whose `execute` raises
`sqlite3.OperationalError` (e.g. the schema was never created). -/
abbrev Storage := Option DB

/-- The failure condition of the storage boundary. -/
inductive StorageErr where
  | unavailable
deriving DecidableEq, Repr

/-- The `category_map` dict of `count_filtered_objects` /
`get_available_genres` / the `select` branch: UI category key to the
stored `obj_type` value.  `dict.get` on an unknown key yields `None`. -/
def categoryMap (category : String) : Option String :=
  if category = "films" then some "фильм"
  else if category = "series" then some "сериал"
  else if category = "books" then some "книга"
  else none

/-- The scalar subquery `SELECT id FROM genres WHERE name = ?`: the id of
the first row whose name matches, if any. -/
def genreIdByName (db : DB) (name : String) : Option Int :=
  (db.genres.find? (fun g => g.2 = name)).map (fun g => g.1)

/-- `id IN (SELECT object_id FROM object_genres WHERE genre_id =
(SELECT id FROM genres WHERE name = ?))`: when the genre name has no row
the scalar subquery is NULL and the membership test is false. -/
def objHasGenre (db : DB) (objId : Int) (name : String) : Bool :=
  match genreIdByName db name with
  | some gid => db.objectGenres.contains (objId, gid)
  | none => false

/-- The WHERE clause shared by `count_filtered_objects`, the `select`
branch of `button`, and `get_available_genres`: the object's type equals
the mapped category (comparison with NULL is false for an unknown
category), the object carries every selected genre (one conjoined
`AND id IN (...)` clause per genre), and, when the viewed filter is on,
the user has a `user_views` row for it. -/
def matchesFilter (db : DB) (category : String) (selectedGenres : List String)
    (viewedFilter : Bool) (userId : Int) (o : Obj) : Bool :=
  (match categoryMap category with
   | some t => o.objType = t
   | none => false)
  && selectedGenres.all (fun g => objHasGenre db o.id g)
  && (!viewedFilter || db.userViews.contains (userId, o.id))

/-- `SELECT COUNT(id) FROM objects WHERE ...` with the filter above. -/
def countFilteredCore (db : DB) (category : String) (selectedGenres : List String)
    (viewedFilter : Bool) (userId : Int) : Nat :=
  (db.objects.filter (matchesFilter db category selectedGenres viewedFilter userId)).length

/-- `SELECT * FROM objects WHERE ...` of the `select` branch: the same
predicate as `countFilteredCore`, returning the rows. -/
def selectFilteredCore (db : DB) (category : String) (selectedGenres : List String)
    (viewedFilter : Bool) (userId : Int) : List Obj :=
  db.objects.filter (matchesFilter db category selectedGenres viewedFilter userId)

/-- `get_available_genres` body: the distinct, lexicographically sorted
genre names attached to some object satisfying the filter. -/
def availableGenresCore (db : DB) (category : String) (selectedGenres : List String)
    (viewedFilter : Bool) (userId : Int) : List String :=
  let objIds := (db.objects.filter
    (matchesFilter db category selectedGenres viewedFilter userId)).map (fun o => o.id)
  let names := db.genres.filterMap (fun g =>
    if db.objectGenres.any (fun l => l.2 == g.1 && objIds.contains l.1)
    then some g.2 else none)
  names.dedup.mergeSort (fun a b => a ≤ b)

/-- `get_category_genres` body: distinct sorted genre names used by
objects whose `obj_type` equals the given string.  (The caller passes
the raw stored type, e.g. `"фильм"`, coming from the data-entry flow.) -/
def categoryGenresCore (db : DB) (objType : String) : List String :=
  let objIds := (db.objects.filter (fun o => o.objType == objType)).map (fun o => o.id)
  let names := db.genres.filterMap (fun g =>
    if db.objectGenres.any (fun l => l.2 == g.1 && objIds.contains l.1)
    then some g.2 else none)
  names.dedup.mergeSort (fun a b => a ≤ b)

/-- `count_filtered_objects` as called through a connection: the body is
wrapped in `try ... except sqlite3.OperationalError: return 0`. -/
def count_filtered_objects (st : Storage) (category : String) (selectedGenres : List String)
    (viewedFilter : Bool) (userId : Int) : Nat :=
  match st with
  | some db => countFilteredCore db category selectedGenres viewedFilter userId
  | none => 0

/-- `get_available_genres` through a connection: the failing query is
caught and `[]` returned. -/
def get_available_genres (st : Storage) (category : String) (selectedGenres : List String)
    (viewedFilter : Bool) (userId : Int) : List String :=
  match st with
  | some db => availableGenresCore db category selectedGenres viewedFilter userId
  | none => []

/-- `get_category_genres` through a connection: the failing query is
caught and `[]` returned. -/
def get_category_genres (st : Storage) (objType : String) : List String :=
  match st with
  | some db => categoryGenresCore db objType
  | none => []

/-- The `select` branch's fetch (`button`, lines 418-439): the `execute`
call is NOT wrapped in any `try`/`except`, so a storage failure
propagates out of the handler instead of degrading to an empty list. -/
def selectFilteredRun (st : Storage) (category : String) (selectedGenres : List String)
    (viewedFilter : Bool) (userId : Int) : Except StorageErr (List Obj) :=
  match st with
  | some db => .ok (selectFilteredCore db category selectedGenres viewedFilter userId)
  | none => .error .unavailable

/-- Filtering with a pointwise-stronger predicate yields at most as many
elements. -/
theorem length_filter_mono {α : Type} (l : List α) (p q : α → Bool)
    (h : ∀ a, p a = true → q a = true) :
    (l.filter p).length ≤ (l.filter q).length := by
  induction l with
  | nil => simp
  | cons a t ih =>
    simp only [List.filter_cons]
    by_cases hp : p a = true
    · rw [if_pos hp, if_pos (h a hp)]
      simpa using ih
    · rw [if_neg hp]
      by_cases hq : q a = true
      · rw [if_pos hq]
        exact Nat.le_succ_of_le ih
      · rw [if_neg hq]
        exact ih

/-- C2: adding a genre to the filter never increases the count: for
`G1 ⊆ G2`, `count_filtered_objects(category, G2, viewedFilter, userId)
≤ count_filtered_objects(category, G1, viewedFilter, userId)` — an entry
is counted only if it carries every genre in the set (AND semantics). -/
theorem c2_count_antitone (st : Storage) (category : String) (g1 g2 : List String)
    (viewedFilter : Bool) (userId : Int) (hsub : ∀ x ∈ g1, x ∈ g2) :
    count_filtered_objects st category g2 viewedFilter userId ≤
      count_filtered_objects st category g1 viewedFilter userId := by
  match st with
  | none => exact Nat.le_refl 0
  | some db =>
    unfold count_filtered_objects countFilteredCore
    apply length_filter_mono
    intro o ho
    unfold matchesFilter at ho ⊢
    simp only [Bool.and_eq_true, List.all_eq_true] at ho ⊢
    exact ⟨⟨ho.1.1, fun g hg => ho.1.2 g (hsub g hg)⟩, ho.2⟩

/-- A small concrete database used by witnesses and counterexamples:
two films, one with genres "drama" and "war", one with only "drama";
user 7 has viewed object 1. -/
def exDb : DB :=
  { objects := [{ id := 1, objType := "фильм" }, { id := 2, objType := "фильм" }]
    genres := [(1, "drama"), (2, "war")]
    objectGenres := [(1, 1), (1, 2), (2, 1)]
    userViews := [(7, 1)] }

/-- Witness for C2 at a concrete input: narrowing `["drama"]` to
`["drama", "war"]` does not increase the count. -/
theorem c2_count_antitone_witness :
    count_filtered_objects (some exDb) "films" ["drama", "war"] false 7 ≤
      count_filtered_objects (some exDb) "films" ["drama"] false 7 :=
  c2_count_antitone (some exDb) "films" ["drama"] ["drama", "war"] false 7 (by decide)

/-- The genre toggle of the `genre` branch of `button`: Python
`if genre in list: list.remove(genre) else: list.append(genre)` —
`remove` drops the first occurrence, `append` adds at the end. -/
def toggleGenre (l : List String) (genre : String) : List String :=
  if genre ∈ l then l.erase genre else l ++ [genre]

/-- C6: toggling the same genre twice in succession returns the selected
set to its original value (as a multiset, hence as a set): a present
genre is removed, an absent one appended, and toggling preserves
duplicate-freeness, so the no-duplicate hypothesis is an invariant of
every reachable session (the set starts out empty). -/
theorem c6_toggle_involution (l : List String) (g : String) (h : l.Nodup) :
    (toggleGenre (toggleGenre l g) g).Perm l
    ∧ (g ∈ l → toggleGenre l g = l.erase g)
    ∧ (g ∉ l → toggleGenre l g = l ++ [g])
    ∧ (toggleGenre l g).Nodup := by
  refine ⟨?_, fun hm => if_pos hm, fun hm => if_neg hm, ?_⟩
  · by_cases hm : g ∈ l
    · have h1 : toggleGenre l g = l.erase g := if_pos hm
      have h2 : g ∉ l.erase g := by
        intro hc
        exact absurd rfl ((h.mem_erase_iff.mp hc).1)
      rw [h1]
      have h3 : toggleGenre (l.erase g) g = l.erase g ++ [g] := if_neg h2
      rw [h3]
      exact (List.perm_append_singleton g (l.erase g)).trans
        (List.perm_cons_erase hm).symm
    · have h1 : toggleGenre l g = l ++ [g] := if_neg hm
      rw [h1]
      have h2 : g ∈ l ++ [g] := by simp
      have h3 : toggleGenre (l ++ [g]) g = (l ++ [g]).erase g := if_pos h2
      rw [h3, List.erase_append_right _ hm, List.erase_cons_head, List.append_nil]
  · unfold toggleGenre
    by_cases hm : g ∈ l
    · rw [if_pos hm]
      exact h.erase g
    · rw [if_neg hm]
      simp [List.nodup_append, h, hm]

/-- Witness for C6 at a concrete input. -/
theorem c6_toggle_involution_witness :
    (toggleGenre (toggleGenre ["drama"] "war") "war").Perm ["drama"] :=
  (c6_toggle_involution ["drama"] "war" (by decide)).1

/-- The `view` branch's write: `INSERT OR IGNORE INTO user_views
(user_id, object_id) VALUES (?, ?)` — the pair is the primary key, so an
existing row makes the insert a no-op. -/
def recordView (db : DB) (u oid : Int) : DB :=
  if (u, oid) ∈ db.userViews then db
  else { db with userViews := db.userViews ++ [(u, oid)] }

/-- The `unview` branch's write: `DELETE FROM user_views WHERE
user_id = ? AND object_id = ?` — deletes every matching row, a no-op
when none exists. -/
def clearView (db : DB) (u oid : Int) : DB :=
  { db with userViews := db.userViews.filter (fun v => v ≠ (u, oid)) }

/-- C8 (amended): when the entry is NOT already marked viewed by the
user, marking it viewed and then unmarking it restores
`countFiltered(..., viewedFilter = true, ...)` to its pre-mark value;
`recordView` and `clearView` are idempotent. -/
theorem c8_view_roundtrip (db : DB) (u oid : Int) (category : String)
    (gs : List String) (uid : Int) (h : (u, oid) ∉ db.userViews) :
    count_filtered_objects (some (clearView (recordView db u oid) u oid)) category gs true uid
        = count_filtered_objects (some db) category gs true uid
    ∧ recordView (recordView db u oid) u oid = recordView db u oid
    ∧ clearView (clearView db u oid) u oid = clearView db u oid := by
  have hfilters : db.userViews.filter (fun v => v ≠ (u, oid)) = db.userViews :=
    List.filter_eq_self.mpr (fun a ha => by
      simp only [ne_eq, decide_eq_true_eq]
      intro hc
      exact h (hc ▸ ha))
  have hdb : clearView (recordView db u oid) u oid = db := by
    unfold recordView clearView
    rw [if_neg h]
    have hsingle : ([(u, oid)] : List (Int × Int)).filter (fun v => v ≠ (u, oid)) = [] := by
      simp
    show ({ db with
      userViews := (db.userViews ++ [(u, oid)]).filter (fun v => v ≠ (u, oid)) } : DB) = db
    rw [List.filter_append, hsingle, hfilters, List.append_nil]
  refine ⟨by rw [hdb], ?_, ?_⟩
  · unfold recordView
    by_cases hm : (u, oid) ∈ db.userViews
    · rw [if_pos hm, if_pos hm]
    · rw [if_neg hm, if_pos (by simp)]
  · unfold clearView
    have h2 : (db.userViews.filter (fun v => v ≠ (u, oid))).filter (fun v => v ≠ (u, oid))
        = db.userViews.filter (fun v => v ≠ (u, oid)) :=
      List.filter_eq_self.mpr (fun a ha => (List.mem_filter.mp ha).2)
    simp only [h2]

/-- Witness for C8 at a concrete input: object 2 is not viewed by user 7
in `exDb`. -/
theorem c8_view_roundtrip_witness :
    count_filtered_objects (some (clearView (recordView exDb 7 2) 7 2)) "films" [] true 7
      = count_filtered_objects (some exDb) "films" [] true 7 :=
  (c8_view_roundtrip exDb 7 2 "films" [] 7 (by decide)).1

/-- Counterexample for C8 as stated: user 7 has ALREADY viewed object 1
in `exDb`; `recordView` is then a no-op but `clearView` removes the
pre-existing mark, so the viewed-filtered count drops from 1 to 0
instead of being restored. -/
theorem c8_view_roundtrip_counterexample :
    count_filtered_objects (some (clearView (recordView exDb 7 1) 7 1)) "films" [] true 7
      ≠ count_filtered_objects (some exDb) "films" [] true 7 := by
  decide

/-- `pop_and_delete_messages`: when the stack is truthy (non-empty) it
pops the topmost level (Python `list.pop()` removes the LAST element)
and deletes each of its message ids, swallowing per-message failures;
otherwise it does nothing.  Result: (ids deleted, remaining stack). -/
def pop_and_delete_messages (stack : List (List Nat)) : List Nat × List (List Nat) :=
  match stack.getLast? with
  | none => ([], stack)
  | some top => (top, stack.dropLast)

/-- `push_new_message_level`: appends an empty level at the top (end). -/
def push_new_message_level (stack : List (List Nat)) : List (List Nat) :=
  stack ++ [[]]

/-- `add_message_to_stack`: appends the id to the topmost (last) level
when the stack is truthy; with an empty (or absent) stack the guard
fails and the id is silently discarded. -/
def add_message_to_stack (stack : List (List Nat)) (mid : Nat) : List (List Nat) :=
  match stack.getLast? with
  | none => stack
  | some top => stack.dropLast ++ [top ++ [mid]]

/-- C10: on an empty stack `pop_and_delete_messages` deletes nothing and
leaves the stack empty, and `add_message_to_stack` silently discards the
handle instead of creating a level; moreover any pop only ever deletes
ids that are tracked in the stack, so a discarded handle is never
deleted by a later pop or drain. -/
theorem c10_empty_stack_ops (m : Nat) (stack : List (List Nat))
    (hm : m ∈ (pop_and_delete_messages stack).1) :
    pop_and_delete_messages [] = (([] : List Nat), ([] : List (List Nat)))
    ∧ add_message_to_stack [] m = []
    ∧ m ∈ stack.flatten := by
  refine ⟨rfl, rfl, ?_⟩
  unfold pop_and_delete_messages at hm
  match hlast : stack.getLast? with
  | none => rw [hlast] at hm; exact absurd hm (List.not_mem_nil m)
  | some top =>
    rw [hlast] at hm
    have htop : top ∈ stack := by
      obtain ⟨hne, heq⟩ :=
        List.mem_getLast?_eq_getLast (l := stack) (x := top) (by simp [hlast])
      rw [heq]
      exact List.getLast_mem hne
    exact List.mem_flatten.mpr ⟨top, htop, hm⟩

/-- Witness for C10 at a concrete input. -/
theorem c10_empty_stack_ops_witness :
    pop_and_delete_messages [] = (([] : List Nat), ([] : List (List Nat)))
    ∧ add_message_to_stack [] 5 = []
    ∧ 5 ∈ ([[5]] : List (List Nat)).flatten :=
  c10_empty_stack_ops 5 [[5]] (by decide)

/-- Conversation states: `(TYPE, NAME, YEAR, ...) = range(11)`. -/
def TYPE : Int := 0

def NAME : Int := 1

def YEAR : Int := 2

def DESCRIPTION : Int := 3

def URL : Int := 4

def IMAGE : Int := 5

def ADMIN_RATING : Int := 6

def SITE_RATING : Int := 7

def GENRES : Int := 8

def EDIT_CHOICE : Int := 9

def EDIT_FIELD : Int := 10

/-- `ConversationHandler.END`. -/
def CONV_END : Int := -1

/-- Decimal digit test on a character (`'0'` .. `'9'`). -/
def isDigitChar (c : Char) : Bool :=
  48 ≤ c.toNat && c.toNat ≤ 57

/-- Whitespace test matching what Python's number parsers strip. -/
def isSpaceChar (c : Char) : Bool :=
  c.toNat = 32 || c.toNat = 9 || c.toNat = 10 || c.toNat = 13

/-- Python's `str.strip()` of surrounding whitespace, on characters. -/
def pyStrip (cs : List Char) : List Char :=
  ((cs.dropWhile isSpaceChar).reverse.dropWhile isSpaceChar).reverse

/-- Python's `str.split(sep)` for a one-character separator, on
characters: always at least one (possibly empty) piece. -/
def splitOnChar (sep : Char) : List Char → List (List Char)
  | [] => [[]]
  | c :: rest =>
    let r := splitOnChar sep rest
    if c = sep then [] :: r
    else
      match r with
      | [] => [[c]]
      | h :: t => (c :: h) :: t

/-- Value of a digit sequence. -/
def digitsVal (ds : List Char) : Nat :=
  ds.foldl (fun n c => n * 10 + (c.toNat - 48)) 0

/-- Python `int(text)` on the decimal forms relevant here: optional
surrounding whitespace, an optional sign, then one or more digits;
anything else raises `ValueError` (`none`). -/
def pyInt (s : String) : Option Int :=
  let t := pyStrip s.data
  let sd : Int × List Char :=
    match t with
    | '-' :: rest => (-1, rest)
    | '+' :: rest => (1, rest)
    | _ => (1, t)
  if !sd.2.isEmpty && sd.2.all isDigitChar then
    some (sd.1 * (digitsVal sd.2 : Int))
  else none

/-- An unsigned decimal literal: digits with at most one point and at
least one digit overall (`"7"`, `"7.5"`, `"7."`, `".5"`). -/
def parseUnsignedDecimal (t : List Char) : Option Rat :=
  match splitOnChar '.' t with
  | [ip] =>
    if !ip.isEmpty && ip.all isDigitChar then
      some ((digitsVal ip : Int) : Rat)
    else none
  | [ip, fp] =>
    if ip.all isDigitChar && fp.all isDigitChar
        && decide (ip.length + fp.length > 0) then
      some (((digitsVal ip * 10 ^ fp.length + digitsVal fp : Nat) : Rat)
        / ((10 ^ fp.length : Nat) : Rat))
    else none
  | _ => none

/-- Python `float(text)` on the plain decimal forms the ratings steps
exercise (exponent/infinity forms are irrelevant to the bot's inputs);
a failed parse raises `ValueError` (`none`). -/
def pyFloat (s : String) : Option Rat :=
  let t := pyStrip s.data
  match t with
  | '-' :: rest => (parseUnsignedDecimal rest).map (fun q => -q)
  | '+' :: rest => parseUnsignedDecimal rest
  | _ => parseUnsignedDecimal t

/-- The ratings steps parse `float(update.message.text.replace(",", "."))`:
the one-character replace turns each `,` into `.`, so both separators
are accepted. -/
def pyRatingParse (s : String) : Option Rat :=
  pyFloat (String.mk (s.data.map (fun c => if c = ',' then '.' else c)))

/-- The in-progress `new_object` dict of the data-entry flow; keys are
added one step at a time, so every field is optional. -/
structure PendingEntry where
  type : Option String := none
  name : Option String := none
  year : Option Int := none
  description : Option String := none
  url : Option String := none
  image : Option String := none
  adminRating : Option Rat := none
  siteRating : Option Rat := none
  genres : Option (List String) := none
deriving DecidableEq, Repr

/-- `add_year`: `new_object['year'] = int(text)` — the bare `int` call
raises `ValueError` on a non-numeric reply (modelled as `.error ()`),
BEFORE any assignment or reply; on success it stores the year, prompts
for the description and returns the next state. -/
def add_year (text : String) (e : PendingEntry) :
    Except Unit (PendingEntry × Int × List String) :=
  match pyInt text with
  | some y => .ok ({ e with year := some y }, DESCRIPTION, ["Введите описание:"])
  | none => .error ()

/-- `add_admin_rating`: `float(text.replace(",", "."))`, then prompt for
the site rating. -/
def add_admin_rating (text : String) (e : PendingEntry) :
    Except Unit (PendingEntry × Int × List String) :=
  match pyRatingParse text with
  | some r => .ok ({ e with adminRating := some r }, SITE_RATING,
      ["Введите оценку с сайта (число):"])
  | none => .error ()

/-- `add_site_rating`: parses the site rating the same way, then builds
the genres prompt from `get_category_genres` of the pending type. -/
def add_site_rating (stg : Storage) (text : String) (e : PendingEntry) :
    Except Unit (PendingEntry × Int × List String) :=
  match pyRatingParse text with
  | some r =>
    let genreNames := get_category_genres stg (e.type.getD "")
    let base := "Введите жанры через запятую:"
    let msg := if genreNames.isEmpty then base
      else base ++ " (добавлены ранее: " ++ String.intercalate ", " genreNames ++ ")"
    .ok ({ e with siteRating := some r }, GENRES, [msg])
  | none => .error ()

/-- The conversation framework around one message-handler step: the
callback's return value becomes the next state, while an uncaught
exception is routed to the (absent) error handlers — the conversation
state is NOT updated and no reply is delivered.  Result: the pending
entry, the state the conversation is left in, and the messages sent. -/
def runStep (step : String → PendingEntry → Except Unit (PendingEntry × Int × List String))
    (state : Int) (text : String) (e : PendingEntry) : PendingEntry × Int × List String :=
  match step text e with
  | .ok r => r
  | .error _ => (e, state, [])

/-- C3 (amended): a reply that fails to parse as a number leaves the
number-parsing steps in the same state with `pendingEntry` unchanged,
but NO re-prompt (indeed no message at all) is sent — the bare
`int`/`float` call raises an uncaught `ValueError`; ratings replies
using either `.` or `,` as decimal separator parse successfully. -/
theorem c3_parse_failure_behaviour (stg : Storage) (e : PendingEntry) (text : String)
    (hI : pyInt text = none) (hF : pyRatingParse text = none) :
    runStep add_year YEAR text e = (e, YEAR, [])
    ∧ runStep add_admin_rating ADMIN_RATING text e = (e, ADMIN_RATING, [])
    ∧ runStep (add_site_rating stg) SITE_RATING text e = (e, SITE_RATING, [])
    ∧ (pyRatingParse "7,5").isSome = true
    ∧ (pyRatingParse "8.2").isSome = true := by
  refine ⟨?_, ?_, ?_, by decide, by decide⟩
  · simp [runStep, add_year, hI]
  · simp [runStep, add_admin_rating, hF]
  · simp [runStep, add_site_rating, hF]

/-- Witness for C3 (amended) at a concrete input. -/
theorem c3_parse_failure_behaviour_witness :
    runStep add_year YEAR "qq" {} = ({}, YEAR, ([] : List String)) :=
  (c3_parse_failure_behaviour none {} "qq" (by decide) (by decide)).1

/-- Counterexample for C3 as stated: on the non-numeric reply `"abc"`
the year step sends NO message at all — in particular it does not
re-prompt — even though the state machine indeed stays at `YEAR`. -/
theorem c3_no_reprompt_counterexample :
    pyInt "abc" = none
    ∧ (runStep add_year YEAR "abc" {}).2.2 = ([] : List String)
    ∧ (runStep add_year YEAR "abc" {}).2.1 = YEAR := by
  refine ⟨by decide, rfl, rfl⟩

/-- Python exceptions that the handlers can raise. -/
inductive PyErr where
  | keyError
  | indexError
  | valueError
deriving DecidableEq, Repr

/-- Whether an `Except` computation finished without raising. -/
def exceptIsOk {ε α : Type} : Except ε α → Bool
  | .ok _ => true
  | .error _ => false

/-- Association-list lookup, modelling Python `dict[key]` access order
(first match wins; dicts have unique keys anyway). -/
def lookupA {α : Type} : List (String × α) → String → Option α
  | [], _ => none
  | p :: rest, k => if p.1 = k then some p.2 else lookupA rest k

/-- Association-list store, modelling Python `dict[key] = value`:
overwrite in place, or append a fresh key at the end (insertion
order). -/
def setA {α : Type} : List (String × α) → String → α → List (String × α)
  | [], k, v => [(k, v)]
  | p :: rest, k, v => if p.1 = k then (k, v) :: rest else p :: setA rest k v

/-- Storing under a key makes it found with the stored value. -/
theorem lookupA_setA {α : Type} (m : List (String × α)) (k : String) (v : α) :
    lookupA (setA m k v) k = some v := by
  induction m with
  | nil => simp [setA, lookupA]
  | cons p rest ih =>
    by_cases hp : p.1 = k
    · simp [setA, lookupA, hp]
    · simp [setA, lookupA, hp, ih]

/-- `PAGE_SIZE = 5`. -/
def PAGE_SIZE : Nat := 5

/-- Effective index of a Python slice bound: negative indices count from
the end (clamped at 0), positive ones are clamped at the length. -/
def pySliceIdx (n : Nat) (i : Int) : Nat :=
  if i < 0 then ((n : Int) + i).toNat else min i.toNat n

/-- Python `l[a:b]` (step 1). -/
def pySlice {α : Type} (l : List α) (a b : Int) : List α :=
  let s := pySliceIdx l.length a
  let e := pySliceIdx l.length b
  (l.drop s).take (e - s)

/-- A slice starting at or beyond the length is empty. -/
theorem pySlice_of_start_ge {α : Type} (l : List α) (a b : Int) (h0 : 0 ≤ a)
    (h : (l.length : Int) ≤ a) : pySlice l a b = [] := by
  have h1 : pySliceIdx l.length a = l.length := by
    unfold pySliceIdx
    rw [if_neg (not_lt.mpr h0)]
    omega
  unfold pySlice
  simp only [h1, List.drop_length, List.take_nil]

/-- `context.user_data` for one chat session: the dict keys used by the
recommendation flow.  `selected_genres` / `viewed_filter` may be absent
altogether (`none`); `results_cache`, `results_page` and
`message_stack` are read with defaults (`.get(..., [])` / 0), so plain
fields with those defaults model them.  `nextMsgId` is the transport's
supply of fresh message ids for messages the handlers send. -/
structure Session where
  currentCategory : Option String := none
  selectedGenres : Option (List (String × List String)) := none
  viewedFilter : Option (List (String × Bool)) := none
  resultsCache : List Obj := []
  resultsPage : Int := 0
  messageStack : List (List Nat) := []
  nextMsgId : Nat := 0
deriving DecidableEq, Repr

/-- What one call of `send_paginated_results` renders: the sliced page,
the page count, the requested page and whether the "Ничего не найдено"
branch was taken. -/
structure RenderedPage where
  pageResults : List Obj
  totalPages : Nat
  page : Int
  nothingFound : Bool
deriving DecidableEq, Repr

/-- Record `n` freshly sent messages on the stack. -/
def recordMessages : List (List Nat) → Nat → Nat → List (List Nat) × Nat
  | stack, nid, 0 => (stack, nid)
  | stack, nid, Nat.succ k => recordMessages (add_message_to_stack stack nid) (nid + 1) k

/-- `send_paginated_results`: reads `results_page` (default 0) and
`results_cache` (default `[]`), computes `total_pages = (len + PAGE_SIZE
- 1) // PAGE_SIZE`, slices `results[start:end]`, pushes a new level and
records either the single "Ничего не найдено" message or one message
per result plus the page-indicator message. -/
def send_paginated_results (st : Session) : Session × RenderedPage :=
  let page := st.resultsPage
  let results := st.resultsCache
  let total_pages := (results.length + PAGE_SIZE - 1) / PAGE_SIZE
  let start_index := page * (PAGE_SIZE : Int)
  let end_index := start_index + (PAGE_SIZE : Int)
  let page_results := pySlice results start_index end_index
  let s1 := push_new_message_level st.messageStack
  let msgCount := if page_results.isEmpty then 1 else page_results.length + 1
  let r2 := recordMessages s1 st.nextMsgId msgCount
  ({ st with messageStack := r2.1, nextMsgId := r2.2 },
   { pageResults := page_results, totalPages := total_pages, page := page,
     nothingFound := page_results.isEmpty })

/-- The `page` branch of `button`: stores the payload's page index into
`results_page` WITHOUT any validation or clamping, pops the current
level and re-renders. -/
def pageHandler (p : Int) (st : Session) : Session × RenderedPage :=
  let st1 := { st with resultsPage := p }
  let popped := pop_and_delete_messages st1.messageStack
  send_paginated_results { st1 with messageStack := popped.2 }

/-- The `select` branch of `button`: runs the filtered query, replaces
`results_cache`, resets `results_page` to 0, pops and re-renders.
(Storage is taken as available here; the failure path of this branch's
un-guarded query is `selectFilteredRun`.) -/
def selectHandler (category : String) (uid : Int) (db : DB) (st : Session) :
    Session × RenderedPage :=
  let selected := (lookupA (st.selectedGenres.getD []) category).getD []
  let vf := (lookupA (st.viewedFilter.getD []) category).getD false
  let st1 := { st with
    resultsCache := selectFilteredCore db category selected vf uid
    resultsPage := 0 }
  let popped := pop_and_delete_messages st1.messageStack
  send_paginated_results { st1 with messageStack := popped.2 }

/-- The `category` branch of `button`: records the current category,
auto-initializes BOTH per-category keys for every prior dict shape
(absent dict, dict without the key, dict with the key), then pops twice
(the duplicated `pop_and_delete_messages` call in the source), pushes a
level and records the filter-screen message.  The computed count and
keyboard only affect message text. -/
def categoryHandler (category : String) (st : Session) : Session :=
  let st1 := { st with currentCategory := some category }
  let sg0 := st1.selectedGenres.getD []
  let sg := if (lookupA sg0 category).isSome then sg0 else setA sg0 category []
  let vf0 := st1.viewedFilter.getD []
  let vf := if (lookupA vf0 category).isSome then vf0 else setA vf0 category false
  let st2 := { st1 with selectedGenres := some sg, viewedFilter := some vf }
  let p1 := pop_and_delete_messages st2.messageStack
  let p2 := pop_and_delete_messages p1.2
  let s3 := push_new_message_level p2.2
  let s4 := add_message_to_stack s3 st2.nextMsgId
  { st2 with messageStack := s4, nextMsgId := st2.nextMsgId + 1 }

/-- The `genre` branch of `button`: initializes the WHOLE dict to
`{category: []}` / `{category: False}` only when the dict key is absent
altogether; it then indexes `dict[category]` directly, which raises
`KeyError` when the dict exists but lacks this category.  On success it
toggles the viewed flag or the genre and edits the screen in place (no
stack change). -/
def genreHandler (category genre : String) (st : Session) : Except PyErr Session :=
  let sg := match st.selectedGenres with
    | none => [(category, [])]
    | some m => m
  let vf := match st.viewedFilter with
    | none => [(category, false)]
    | some m => m
  if genre = "_viewed_" then
    match lookupA vf category with
    | none => .error .keyError
    | some b =>
      .ok { st with selectedGenres := some sg, viewedFilter := some (setA vf category (!b)) }
  else
    match lookupA sg category with
    | none => .error .keyError
    | some gl =>
      .ok { st with selectedGenres := some (setA sg category (toggleGenre gl genre)),
                    viewedFilter := some vf }

/-- Twelve film rows, for the pagination scenario of the spec. -/
def mkFilmRows (n : Nat) : List Obj :=
  (List.range n).map (fun i => { id := (i : Int) + 1, objType := "фильм" })

/-- A session holding 12 cached results on page 0. -/
def st12 : Session := { resultsCache := mkFilmRows 12 }

/-- Counterexample for C1 as stated: with 12 cached results (so
`totalPages = 3`), the page-navigation event for page 3 is accepted as
the new `results_page` verbatim — neither rejected nor clamped — and the
invariant `resultsPage * pageSize < len(resultsCache)` is violated. -/
theorem c1_page_invariant_counterexample :
    (pageHandler 3 st12).1.resultsPage = 3
    ∧ (st12.resultsCache.length + PAGE_SIZE - 1) / PAGE_SIZE = 3
    ∧ ¬ ((pageHandler 3 st12).1.resultsPage * (PAGE_SIZE : Int)
          < ((pageHandler 3 st12).1.resultsCache.length : Int)) := by
  decide

/-- C1 (amended): the `page` handler stores ANY requested page index
unvalidated; an out-of-range page does not crash — the slice is empty
and the "Ничего не найдено" branch renders — and `results_page` is reset
to 0 only when a new query is executed by the `select` handler. -/
theorem c1_page_accepts_any_index (st : Session) (p : Int) (h0 : 0 ≤ p)
    (hout : (st.resultsCache.length : Int) ≤ p * (PAGE_SIZE : Int)) :
    (pageHandler p st).1.resultsPage = p
    ∧ (pageHandler p st).2.nothingFound = true
    ∧ (∀ category uid db st', (selectHandler category uid db st').1.resultsPage = 0) := by
  refine ⟨by simp [pageHandler, send_paginated_results], ?_, ?_⟩
  · have hempty : pySlice st.resultsCache (p * (PAGE_SIZE : Int))
        (p * (PAGE_SIZE : Int) + (PAGE_SIZE : Int)) = [] :=
      pySlice_of_start_ge _ _ _ (mul_nonneg h0 (by norm_num)) hout
    simp [pageHandler, send_paginated_results, hempty]
  · intro category uid db st'
    simp [selectHandler, send_paginated_results]

/-- Witness for C1 (amended) at a concrete input. -/
theorem c1_page_accepts_any_index_witness :
    (pageHandler 3 st12).2.nothingFound = true :=
  (c1_page_accepts_any_index st12 3 (by decide) (by decide)).2.1

/-- A session where the filter dicts exist but only know the key
`"films"`. -/
def stPartial : Session :=
  { selectedGenres := some [("films", [])], viewedFilter := some [("films", false)] }

/-- Counterexample for C7 as stated: with `selected_genres` present but
lacking the key `"series"`, the genre-toggle handler raises `KeyError`
instead of auto-initializing. -/
theorem c7_missing_key_counterexample :
    genreHandler "series" "drama" stPartial = .error PyErr.keyError := rfl

/-- C7 (amended): the `category` handler auto-initializes both
per-category keys for every prior shape of the session state, and the
`genre` handler succeeds when the dicts are absent altogether (it
creates them seeded with the touched category) — but when a dict exists
WITHOUT the touched category's key, the `genre` handler's direct
`dict[category]` access raises `KeyError`. -/
theorem c7_category_autoinit (st stFresh : Session) (m : List (String × List String))
    (category genre : String) (hm : st.selectedGenres = some m)
    (hnone : lookupA m category = none) (hg : genre ≠ "_viewed_")
    (hfresh1 : stFresh.selectedGenres = none) (hfresh2 : stFresh.viewedFilter = none) :
    (∀ s c, (lookupA ((categoryHandler c s).selectedGenres.getD []) c).isSome = true
      ∧ (lookupA ((categoryHandler c s).viewedFilter.getD []) c).isSome = true)
    ∧ (∀ c g, exceptIsOk (genreHandler c g stFresh) = true)
    ∧ genreHandler category genre st = .error .keyError := by
  refine ⟨?_, ?_, ?_⟩
  · intro s c
    constructor
    · by_cases hl : (lookupA (s.selectedGenres.getD []) c).isSome = true
      · simp [categoryHandler, hl]
      · simp [categoryHandler, hl, lookupA_setA]
    · by_cases hl : (lookupA (s.viewedFilter.getD []) c).isSome = true
      · simp [categoryHandler, hl]
      · simp [categoryHandler, hl, lookupA_setA]
  · intro c g
    by_cases hg' : g = "_viewed_"
    · simp [genreHandler, hfresh1, hfresh2, hg', lookupA, exceptIsOk]
    · simp [genreHandler, hfresh1, hfresh2, hg', lookupA, exceptIsOk]
  · simp [genreHandler, hm, hg, hnone]

/-- Witness for C7 (amended) at a concrete input. -/
theorem c7_category_autoinit_witness :
    (lookupA ((categoryHandler "books" stPartial).selectedGenres.getD []) "books").isSome = true
    ∧ (lookupA ((categoryHandler "books" stPartial).viewedFilter.getD []) "books").isSome
        = true :=
  (c7_category_autoinit stPartial {} [("films", [])] "series" "drama" rfl (by decide)
    (by decide) rfl rfl).1 stPartial "books"

/-- C4 (amended): on a failing storage connection the guarded reads
degrade — `count_filtered_objects` returns 0, `get_available_genres`
and `get_category_genres` return `[]` — but the `select` branch's
un-guarded fetch PROPAGATES the `StorageUnavailable` failure instead of
returning an empty result. -/
theorem c4_reads_degrade (category objType : String) (gs : List String)
    (vf : Bool) (uid : Int) :
    count_filtered_objects none category gs vf uid = 0
    ∧ get_available_genres none category gs vf uid = []
    ∧ get_category_genres none objType = []
    ∧ selectFilteredRun none category gs vf uid = .error .unavailable :=
  ⟨rfl, rfl, rfl, rfl⟩

/-- Counterexample for C4 as stated: `selectFiltered` on a failing
storage raises instead of returning the empty sequence. -/
theorem c4_select_propagates_counterexample :
    selectFilteredRun none "films" [] false 0 = .error StorageErr.unavailable
    ∧ selectFilteredRun none "films" [] false 0 ≠ .ok [] :=
  ⟨rfl, fun hc => Except.noConfusion hc⟩

/-- The assembled `new_object` dict at the commit step of the data-entry
flow. -/
structure NewObject where
  type : String
  name : String
  year : Int
  description : String
  url : String
  image : String
  adminRating : Rat
  siteRating : Rat
  genres : List String
deriving DecidableEq, Repr

/-- sqlite's next `INTEGER PRIMARY KEY` rowid (`lastrowid`). -/
def freshObjId (db : DB) : Int :=
  (db.objects.map (fun o => o.id)).foldl max 0 + 1

/-- Next rowid of the `genres` table. -/
def freshGenreId (db : DB) : Int :=
  (db.genres.map (fun g => g.1)).foldl max 0 + 1

/-- `INSERT OR IGNORE INTO genres (name) VALUES (?)`: the name column is
UNIQUE, so an existing row makes this a no-op. -/
def ensureGenre (db : DB) (name : String) : DB :=
  if db.genres.any (fun g => g.2 = name) then db
  else { db with genres := db.genres ++ [(freshGenreId db, name)] }

/-- Ensure the genre row, `SELECT id FROM genres WHERE name = ?`, then
`INSERT INTO object_genres (object_id, genre_id)`.  (After the ensure
the lookup always succeeds; the `none` arm is unreachable.) -/
def linkGenre (db : DB) (oid : Int) (name : String) : DB :=
  let db1 := ensureGenre db name
  match genreIdByName db1 name with
  | some gid => { db1 with objectGenres := db1.objectGenres ++ [(oid, gid)] }
  | none => db1

/-- The body of `add_genres`'s transaction: insert the object row, then
ensure-and-link each genre name. -/
def insertWithGenres (db : DB) (o : NewObject) : DB :=
  let oid := freshObjId db
  let db1 := { db with objects := db.objects ++ [{
    id := oid
    objType := o.type
    fields := [("obj_name", o.name), ("obj_year", toString o.year),
      ("obj_description", o.description), ("obj_url", o.url), ("obj_image", o.image),
      ("admin_rating", toString o.adminRating), ("site_rating", toString o.siteRating)] }] }
  o.genres.foldl (fun d g => linkGenre d oid g) db1

/-- Outcome of the guarded commit in `add_genres`: either the insert
went through (possibly on the retry), or a user-visible failure notice
was sent. -/
inductive WriteOutcome where
  | committed (db : DB)
  | failedNotice (db : DB)
deriving DecidableEq, Repr

/-- `add_genres`, lines 651-689: the transaction runs under `try`; on
`sqlite3.OperationalError` it calls `setup_database()` (best-effort
schema re-initialization), retries the same transaction once, and only
when the retry also fails replies with the error notice.  `avail1` and
`avail2` are the availability of storage on the two attempts. -/
def addGenresCommit (avail1 avail2 : Bool) (db : DB) (o : NewObject) : WriteOutcome :=
  if avail1 then .committed (insertWithGenres db o)
  else if avail2 then .committed (insertWithGenres db o)
  else .failedNotice db

/-- `UPDATE objects SET {field} = ? WHERE id = ?`. -/
def updateField (db : DB) (oid : Int) (field value : String) : DB :=
  { db with objects := db.objects.map (fun o =>
      if o.id = oid then { o with fields := setA o.fields field value } else o) }

/-- The non-genres write of `edit_field` (lines 751-769): the `UPDATE`
is NOT wrapped in any `try`/`except`, so a storage failure propagates
uncaught — no retry, no schema re-initialization, no user notice. -/
def editFieldWrite (avail : Bool) (db : DB) (oid : Int) (field value : String) :
    Except StorageErr DB :=
  if avail then .ok (updateField db oid field value)
  else .error .unavailable

/-- C5 (amended): only the `add_genres` commit has retry-once-after-
re-init semantics (it commits when either attempt finds storage
available and surfaces a notice only when both fail); the `edit_field`
update — like the delete/view/unview writes — propagates the very first
`StorageUnavailable` failure with no retry and no notice. -/
theorem c5_only_insert_retries (db : DB) (o : NewObject) (oid : Int) (field value : String) :
    addGenresCommit true true db o = .committed (insertWithGenres db o)
    ∧ addGenresCommit false true db o = .committed (insertWithGenres db o)
    ∧ addGenresCommit false false db o = .failedNotice db
    ∧ editFieldWrite false db oid field value = .error .unavailable
    ∧ editFieldWrite true db oid field value = .ok (updateField db oid field value) :=
  ⟨rfl, rfl, rfl, rfl, rfl⟩

/-- Strings "7,5" and "8.2" as rationals, for the concrete entry. -/
def exNewObject : NewObject :=
  { type := "фильм", name := "X", year := 1999, description := "d", url := "u",
    image := "i", adminRating := 15 / 2, siteRating := 41 / 5,
    genres := ["drama", "thriller"] }

/-- Counterexample for C5 as stated: a first-attempt storage failure in
`edit_field` surfaces immediately as an uncaught `StorageUnavailable` —
it is not retried, although the same failure in the `add_genres` commit
WOULD be retried and would succeed. -/
theorem c5_edit_no_retry_counterexample :
    editFieldWrite false exDb 1 "obj_name" "Y" = .error StorageErr.unavailable
    ∧ addGenresCommit false true exDb exNewObject
        = .committed (insertWithGenres exDb exNewObject) :=
  ⟨rfl, rfl⟩

/-- Python list indexing `l[i]`: raises `IndexError` past the end. -/
def pyIndex {α : Type} (l : List α) (i : Nat) : Except PyErr α :=
  match l[i]? with
  | some x => .ok x
  | none => .error .indexError

/-- The `delete` branch's three cascading deletes on `objects`,
`object_genres` and `user_views`. -/
def deleteObjectCascade (db : DB) (oid : Int) : DB :=
  { db with
    objects := db.objects.filter (fun o => o.id ≠ oid)
    objectGenres := db.objectGenres.filter (fun l => l.1 ≠ oid)
    userViews := db.userViews.filter (fun v => v.2 ≠ oid) }

/-- The `button` callback dispatcher: splits the payload on `:`, takes
`parts[0]` as the action and dispatches through the source's if/elif
chain.  Branch bodies faithfully reproduce the session/database
effects; message/caption edits that change no state are elided.  The
two `admin` sub-actions (panel, add_object) only edit messages or enter
the add-object conversation, so they leave session and database
unchanged — but `parts[1]` is still indexed, so a bare `"admin"`
payload raises `IndexError`.  A payload whose action matches no branch
falls through the whole chain and the handler returns having done
nothing.  Storage is taken as available throughout (its failure paths
are modelled separately). -/
def button (admins : List Int) (uid : Int) (payload : String) (st : Session) (db : DB) :
    Except PyErr (Session × DB) :=
  let parts := (splitOnChar ':' payload.data).map (fun cs => String.mk cs)
  let action := parts.headD ""
  if action = "admin" then
    match pyIndex parts 1 with
    | .error e => .error e
    | .ok _sub => .ok (st, db)
  else if action = "category" then
    match pyIndex parts 1 with
    | .error e => .error e
    | .ok category => .ok (categoryHandler category st, db)
  else if action = "genre" then
    match pyIndex parts 1, pyIndex parts 2 with
    | .ok category, .ok genre => (genreHandler category genre st).map (fun st1 => (st1, db))
    | .error e, _ => .error e
    | _, .error e => .error e
  else if action = "delete" then
    if admins.contains uid then
      match pyIndex parts 1, pyIndex parts 2 with
      | .ok _category, .ok oidS =>
        match pyInt oidS with
        | none => .error .valueError
        | some oid =>
          let db1 := deleteObjectCascade db oid
          let st1 := { st with resultsCache := st.resultsCache.filter (fun o => o.id ≠ oid) }
          let popped := pop_and_delete_messages st1.messageStack
          .ok ((send_paginated_results { st1 with messageStack := popped.2 }).1, db1)
      | .error e, _ => .error e
      | _, .error e => .error e
    else .ok (st, db)
  else if action = "select" then
    match pyIndex parts 1 with
    | .error e => .error e
    | .ok category => .ok ((selectHandler category uid db st).1, db)
  else if action = "page" then
    match pyIndex parts 1, pyIndex parts 2 with
    | .ok _category, .ok pS =>
      match pyInt pS with
      | none => .error .valueError
      | some p => .ok ((pageHandler p st).1, db)
    | .error e, _ => .error e
    | _, .error e => .error e
  else if action = "view" then
    match pyIndex parts 1, pyIndex parts 2 with
    | .ok _category, .ok oidS =>
      match pyInt oidS with
      | none => .error .valueError
      | some oid => .ok (st, recordView db uid oid)
    | .error e, _ => .error e
    | _, .error e => .error e
  else if action = "unview" then
    match pyIndex parts 1, pyIndex parts 2 with
    | .ok _category, .ok oidS =>
      match pyInt oidS with
      | none => .error .valueError
      | some oid => .ok (st, clearView db uid oid)
    | .error e, _ => .error e
    | _, .error e => .error e
  else if action = "back" then
    match pyIndex parts 1 with
    | .error e => .error e
    | .ok target =>
      let popped := pop_and_delete_messages st.messageStack
      let st1 := { st with messageStack := popped.2 }
      if target = "recommendations" then
        let s2 := push_new_message_level st1.messageStack
        let s3 := add_message_to_stack s2 st1.nextMsgId
        .ok ({ st1 with messageStack := s3, nextMsgId := st1.nextMsgId + 1 }, db)
      else if target = "genres" then
        match pyIndex parts 2 with
        | .error e => .error e
        | .ok _category =>
          let s2 := push_new_message_level st1.messageStack
          let s3 := add_message_to_stack s2 st1.nextMsgId
          .ok ({ st1 with messageStack := s3, nextMsgId := st1.nextMsgId + 1 }, db)
      else .ok (st1, db)
  else .ok (st, db)

/-- C9: a colon-delimited payload whose action is none of the
recognized ones falls through every branch of the dispatcher: the
handler completes without failing and changes neither the session state
nor the database. -/
theorem c9_unknown_action_ignored (admins : List Int) (uid : Int) (payload : String)
    (st : Session) (db : DB)
    (h : ((splitOnChar ':' payload.data).map (fun cs => String.mk cs)).headD ""
      ∉ (["admin", "category", "genre", "delete", "select", "page", "view", "unview",
          "back"] : List String)) :
    button admins uid payload st db = .ok (st, db) := by
  simp only [List.mem_cons, List.not_mem_nil, or_false, not_or] at h
  obtain ⟨h1, h2, h3, h4, h5, h6, h7, h8, h9⟩ := h
  unfold button
  simp only [if_neg h1, if_neg h2, if_neg h3, if_neg h4, if_neg h5, if_neg h6, if_neg h7,
    if_neg h8, if_neg h9]

/-- Witness for C9 at a concrete input. -/
theorem c9_unknown_action_ignored_witness :
    button [] 0 "frobnicate:1" {} exDb = .ok ({}, exDb) :=
  c9_unknown_action_ignored [] 0 "frobnicate:1" {} exDb (by decide)
